import Mathlib

/-!
Shallow embedding of the superfly/contextwindow library (Go), covering the
context/record data model (storage.go), the model-call protocol and session
facade (contextwindow.go), the server-side-threading eligibility check
(responses_model.go), and the summarizer (summarizer.go).

Conventions of the embedding:
* The sqlite database is modelled as an explicit `DB` value holding the
  `contexts` and `records` tables as lists in row-insertion order, together
  with the autoincrement counter for record ids, a counter modelling
  `uuid.New()`, the current wall clock (`time.Now().UTC()` is monotone), and
  an `insertBudget` that injects storage-layer I/O failures at record-insert
  statements (modelling, e.g., a closed database as in the repository's
  `TestCallModelInsertRecordError`): `none` means inserts always succeed,
  `some k` means the next `k` record inserts succeed and the one after fails.
* SQL `SELECT ... ORDER BY ts ASC` is modelled as a filter of the
  insertion-ordered table followed by a stable merge sort on the timestamp.
* Every state-mutating operation returns its `Except` result together with
  the database it leaves behind; a transactional operation returns the
  original database on failure (rollback), a non-transactional sequence of
  statements returns the partially-updated database.
* The cl100k_base tokenizer is not reimplemented: every operation that calls
  the Go `tokenCount` is parameterized by an arbitrary token-count function
  `tc : String → Nat`, so the theorems hold for any tokenizer (including the
  whitespace-fields fallback).
* Timestamps are naturals; `uuid.New()` for context ids is modelled by a
  counter-derived fresh string.
-/

deriving instance DecidableEq for Except

namespace Contextwindow

/-- Record source kinds, mirroring the Go `RecordType` enumeration
(`Prompt`, `ModelResp`, `ToolCall`, `ToolOutput`, `SystemPrompt`). -/
inductive RecordType where
  | prompt
  | modelResp
  | toolCall
  | toolOutput
  | systemPrompt
deriving DecidableEq, Repr

/-- One row of the `records` table (Go struct `Record` in storage.go). -/
structure Record where
  id : Nat
  timestamp : Nat
  source : RecordType
  content : String
  live : Bool
  estTokens : Nat
  contextID : String
  responseID : Option String
deriving DecidableEq, Repr

/-- One row of the `contexts` table (Go struct `Context` in storage.go). -/
structure Context where
  id : String
  name : String
  startTime : Nat
  useServerSideThreading : Bool
  lastResponseID : Option String
deriving DecidableEq, Repr

/-- The sqlite database state: both tables in row-insertion order, the
record-id autoincrement counter, a counter modelling `uuid.New()`, the
current clock, and the insert-failure-injection budget (see module header). -/
structure DB where
  contexts : List Context
  records : List Record
  nextRecordID : Nat
  nextContextID : Nat
  now : Nat
  insertBudget : Option Nat
deriving DecidableEq, Repr

/-- The empty database right after `InitializeSchema` (autoincrement ids
start at 1). -/
def DB.empty : DB :=
  { contexts := [], records := [], nextRecordID := 1, nextContextID := 0,
    now := 0, insertBudget := none }

/-- Models `uuid.New().String()` for context ids: the n-th generated id. -/
def mkContextID (n : Nat) : String :=
  "ctx-" ++ toString n

/-- Go `getContextIDByName` (storage.go): `SELECT id FROM contexts WHERE name = ?`. -/
def getContextIDByName (db : DB) (name : String) : Option String :=
  (db.contexts.find? (fun c => decide (c.name = name))).map Context.id

/-- Go `GetContextByName` (storage.go): `SELECT ... FROM contexts WHERE name = ?`. -/
def GetContextByName (db : DB) (name : String) : Option Context :=
  db.contexts.find? (fun c => decide (c.name = name))

/-- Go `GetContext` (storage.go): `SELECT ... FROM contexts WHERE id = ?`. -/
def GetContext (db : DB) (contextID : String) : Option Context :=
  db.contexts.find? (fun c => decide (c.id = contextID))

/-- Go `SetContextServerSideThreading` (storage.go):
`UPDATE contexts SET use_server_side_threading = ? WHERE id = ?`. -/
def SetContextServerSideThreading (db : DB) (contextID : String) (enabled : Bool) : DB :=
  { db with contexts := db.contexts.map (fun c =>
      if c.id = contextID then { c with useServerSideThreading := enabled } else c) }

/-- Go `UpdateContextLastResponseID` (storage.go):
`UPDATE contexts SET last_response_id = ? WHERE id = ?`. -/
def UpdateContextLastResponseID (db : DB) (contextID : String) (responseID : String) : DB :=
  { db with contexts := db.contexts.map (fun c =>
      if c.id = contextID then { c with lastResponseID := some responseID } else c) }

/-- Go `CreateContextWithThreading` (storage.go): rejects the empty name;
if a context with the name exists, returns it, first updating its threading
mode in place when the requested mode differs (get-or-create is also
get-or-update-mode); otherwise inserts a fresh row. -/
def CreateContextWithThreading (db : DB) (name : String) (useServerSideThreading : Bool) :
    Except String Context × DB :=
  if name = "" then
    (.error "context name cannot be empty", db)
  else
    match GetContextByName db name with
    | some existingContext =>
        if existingContext.useServerSideThreading ≠ useServerSideThreading then
          let db1 := SetContextServerSideThreading db existingContext.id useServerSideThreading
          (.ok { existingContext with useServerSideThreading := useServerSideThreading }, db1)
        else
          (.ok existingContext, db)
    | none =>
        let c : Context :=
          { id := mkContextID db.nextContextID, name := name, startTime := db.now,
            useServerSideThreading := useServerSideThreading, lastResponseID := none }
        (.ok c, { db with contexts := db.contexts ++ [c],
                          nextContextID := db.nextContextID + 1 })

/-- Go `CreateContext` (storage.go): threading mode defaults to off. -/
def CreateContext (db : DB) (name : String) : Except String Context × DB :=
  CreateContextWithThreading db name false

/-- Comparison used to model `ORDER BY start_time DESC` in `ListContexts`. -/
def contextStartGE (a b : Context) : Bool :=
  b.startTime ≤ a.startTime

/-- Go `ListContexts` (storage.go): all contexts, `ORDER BY start_time DESC`. -/
def ListContexts (db : DB) : List Context :=
  db.contexts.mergeSort contextStartGE

/-- Go `DeleteContext` (storage.go): one transaction deleting the context's
records then the context row itself, by context id. -/
def DeleteContext (db : DB) (contextID : String) : DB :=
  { db with
    records := db.records.filter (fun r => decide (r.contextID ≠ contextID)),
    contexts := db.contexts.filter (fun c => decide (c.id ≠ contextID)) }

/-- Go `DeleteContextByName` (storage.go): look the context up by name
(failing like `GetContextByName` when it is absent), then delete by id. -/
def DeleteContextByName (db : DB) (name : String) : Except String DB :=
  match GetContextByName db name with
  | none => .error ("get context " ++ name ++ ": sql: no rows in result set")
  | some c => .ok (DeleteContext db c.id)

/-- Go `InsertRecordWithResponseID` (storage.go): one `INSERT INTO records`
statement; `est_tokens` is recomputed from the content via `tokenCount`
(parameter `tc`), the timestamp is `time.Now().UTC()` (the clock field).
The insert budget injects the storage-layer failure path. -/
def InsertRecordWithResponseID (tc : String → Nat) (db : DB) (contextID : String)
    (source : RecordType) (content : String) (live : Bool) (responseID : Option String) :
    Except String Record × DB :=
  match db.insertBudget with
  | some 0 => (.error "insert record: sql: database is closed", db)
  | b =>
      let r : Record :=
        { id := db.nextRecordID, timestamp := db.now, source := source,
          content := content, live := live, estTokens := tc content,
          contextID := contextID, responseID := responseID }
      (.ok r, { db with records := db.records ++ [r],
                        nextRecordID := db.nextRecordID + 1,
                        insertBudget := b.map (fun n => n - 1) })

/-- Go `InsertRecord` (storage.go): insert with no response id. -/
def InsertRecord (tc : String → Nat) (db : DB) (contextID : String)
    (source : RecordType) (content : String) (live : Bool) :
    Except String Record × DB :=
  InsertRecordWithResponseID tc db contextID source content live none

/-- Go `insertRecordTxWithResponseID` (storage.go): textually identical to
`InsertRecordWithResponseID` except that it runs on a transaction handle;
the row it stages is the same. -/
def insertRecordTxWithResponseID (tc : String → Nat) (db : DB) (contextID : String)
    (source : RecordType) (content : String) (live : Bool) (responseID : Option String) :
    Except String Record × DB :=
  InsertRecordWithResponseID tc db contextID source content live responseID

/-- Go `insertRecordTx` (storage.go): transactional insert with no response id. -/
def insertRecordTx (tc : String → Nat) (db : DB) (contextID : String)
    (source : RecordType) (content : String) (live : Bool) :
    Except String Record × DB :=
  insertRecordTxWithResponseID tc db contextID source content live none

/-- Go `markRecordNotAlive` (storage.go): `UPDATE records SET live = 0 WHERE id = ?`. -/
def markRecordNotAlive (db : DB) (id : Nat) : DB :=
  { db with records := db.records.map (fun r =>
      if r.id = id then { r with live := false } else r) }

/-- Comparison used to model `ORDER BY ts ASC` in `listRecordsWhere`. -/
def recordTsLE (a b : Record) : Bool :=
  a.timestamp ≤ b.timestamp

/-- Go `listRecordsWhere` (storage.go): `SELECT ... FROM records WHERE <p>
ORDER BY ts ASC`, modelled as a stable merge sort (by timestamp) of the
filtered insertion-ordered table. -/
def listRecordsWhere (db : DB) (p : Record → Bool) : List Record :=
  (db.records.filter p).mergeSort recordTsLE

/-- Go `ListLiveRecords` (storage.go): `context_id = ? AND live = 1`. -/
def ListLiveRecords (db : DB) (contextID : String) : List Record :=
  listRecordsWhere db (fun r => decide (r.contextID = contextID) && r.live)

/-- Go `ListRecordsInContext` (storage.go): `context_id = ?`. -/
def ListRecordsInContext (db : DB) (contextID : String) : List Record :=
  listRecordsWhere db (fun r => decide (r.contextID = contextID))

/-- Go helper inside `canUseServerSideThreading` (responses_model.go): the
test `input.ResponseID != nil && *input.ResponseID != ""`. -/
def hasNonEmptyResponseID (r : Record) : Bool :=
  match r.responseID with
  | some s => decide (s ≠ "")
  | none => false

/-- Go `canUseServerSideThreading` (responses_model.go): refuses any input
containing tool-call/tool-output records; refuses when the most recent
model-response record lacks a (non-empty) response id; refuses when
model-response records mix present and absent response ids. -/
def canUseServerSideThreading (inputs : List Record) : Bool :=
  if inputs.any (fun r => decide (r.source = .toolCall) || decide (r.source = .toolOutput)) then
    false
  else if (match inputs.reverse.find? (fun r => decide (r.source = .modelResp)) with
           | some lastModelResponse => !hasNonEmptyResponseID lastModelResponse
           | none => false) then
    false
  else
    let hasResponseIDs :=
      inputs.any (fun r => decide (r.source = .modelResp) && hasNonEmptyResponseID r)
    let hasMissingResponseIDs :=
      inputs.any (fun r => decide (r.source = .modelResp) && !hasNonEmptyResponseID r)
    if hasResponseIDs && hasMissingResponseIDs then false
    else true

/-- Go `CallModelOpts` (contextwindow.go). -/
structure CallModelOpts where
  disableTools : Bool
deriving DecidableEq, Repr

/-- The optional `CallOptsCapable` interface (contextwindow.go): both of its
methods, as pure functions from inputs to (events, tokens used) respectively
(events, response id, tokens used), failing on transport errors. -/
structure CallOptsCapable where
  CallWithOpts :
    List Record → CallModelOpts → Except String (List Record × Nat)
  CallWithThreadingAndOpts :
    Bool → Option String → List Record → CallModelOpts →
      Except String (List Record × Option String × Nat)

/-- The model adapter seen through the session's capability checks
(contextwindow.go): the required `Call`, plus the optional
`ServerSideThreadingCapable` and `CallOptsCapable` interfaces, each `none`
when the concrete adapter does not implement it (the Go code discovers this
by runtime type assertion). -/
structure ModelAdapter where
  Call : List Record → Except String (List Record × Nat)
  threadingCapable :
    Option (Bool → Option String → List Record →
      Except String (List Record × Option String × Nat))
  callOptsCapable : Option CallOptsCapable

/-- Go `ContextWindow` (contextwindow.go): the session facade state the
claims touch — the model adapter, current context name, max-token budget,
the cumulative `Metrics` counter, and the summarizer configuration. The
tool-runner maps and middleware list are process-local state no claim
depends on and are omitted. -/
structure ContextWindow where
  model : ModelAdapter
  currentContext : String
  maxTokens : Nat
  metricsTotal : Nat
  summarizer : Option (List Record → Except String (List Record × Nat))
  summarizerPrompt : String

/-- Go `NewContextWindowWithThreading` (contextwindow.go), in-memory part:
field initialization (`maxTokens: 4096`, fresh `Metrics`). The database part
(get-or-create of the named context row) is performed by the scenarios via
`CreateContextWithThreading`, exactly as the Go constructor does. -/
def NewContextWindow (model : ModelAdapter) (contextName : String) : ContextWindow :=
  { model := model, currentContext := contextName, maxTokens := 4096,
    metricsTotal := 0, summarizer := none, summarizerPrompt := "" }

/-- Go `AddPrompt` (contextwindow.go): resolve the current context id, then
insert one live `Prompt` record. -/
def AddPrompt (tc : String → Nat) (cw : ContextWindow) (db : DB) (text : String) :
    Except String Unit × DB :=
  match getContextIDByName db cw.currentContext with
  | none => (.error ("add prompt: get context ID for " ++ cw.currentContext), db)
  | some contextID =>
      match InsertRecord tc db contextID .prompt text true with
      | (.error e, db1) => (.error ("add prompt: " ++ e), db1)
      | (.ok _, db1) => (.ok (), db1)

/-- Go `SetSystemPrompt` (contextwindow.go): one transaction that first runs
`UPDATE records SET live = 0 WHERE context_id = ? AND source = SystemPrompt`
and then inserts the new live system-prompt record; on failure the
transaction rolls back, so the original database is returned. -/
def SetSystemPrompt (tc : String → Nat) (cw : ContextWindow) (db : DB) (text : String) :
    Except String Unit × DB :=
  match getContextIDByName db cw.currentContext with
  | none => (.error ("set system prompt: get context ID for " ++ cw.currentContext), db)
  | some contextID =>
      let staged : DB :=
        { db with records := db.records.map (fun r =>
            if r.contextID = contextID ∧ r.source = .systemPrompt then
              { r with live := false }
            else r) }
      match insertRecordTx tc staged contextID .systemPrompt text true with
      | (.error e, _) => (.error ("set system prompt: " ++ e), db)
      | (.ok _, db1) => (.ok (), db1)

/-- The persistence loop of Go `CallModelWithOpts` (contextwindow.go): insert
each event via `InsertRecordWithResponseID` in order, tracking `lastMsg`;
the first failing insert aborts the loop (already-inserted rows are kept,
there is no transaction here). -/
def persistEvents (tc : String → Nat) (db : DB) (contextID : String) :
    List Record → String → Except String String × DB
  | [], lastMsg => (.ok lastMsg, db)
  | event :: rest, _ =>
      match InsertRecordWithResponseID tc db contextID
          event.source event.content event.live event.responseID with
      | (.error e, db1) => (.error ("insert model response: " ++ e), db1)
      | (.ok _, db1) => persistEvents tc db1 contextID rest event.content

/-- Go `CallModelWithOpts` (contextwindow.go): resolve the context, list the
live records, pick the adapter path — server-side threading (failing loudly
when the adapter lacks the capability), else client-side — then add the
adapter-reported token usage to the metrics, persist the events one insert
at a time, and record a returned continuation token on the context row. -/
def CallModelWithOpts (tc : String → Nat) (cw : ContextWindow) (db : DB)
    (opts : CallModelOpts) : Except String String × ContextWindow × DB :=
  match getContextIDByName db cw.currentContext with
  | none => (.error ("call model in context: " ++ cw.currentContext), cw, db)
  | some contextID =>
  match GetContext db contextID with
  | none => (.error ("get context info: " ++ contextID), cw, db)
  | some contextInfo =>
  let recs := ListLiveRecords db contextID
  let invoked : Except String (List Record × Option String × Nat) :=
    if contextInfo.useServerSideThreading then
      match cw.model.threadingCapable with
      | none => .error "model does not support server-side threading"
      | some callWithThreading =>
          let r :=
            match cw.model.callOptsCapable with
            | some optsModel =>
                optsModel.CallWithThreadingAndOpts true contextInfo.lastResponseID recs opts
            | none => callWithThreading true contextInfo.lastResponseID recs
          match r with
          | .error e => .error ("call model with threading: " ++ e)
          | .ok out => .ok out
    else
      let r :=
        match cw.model.callOptsCapable with
        | some optsModel => optsModel.CallWithOpts recs opts
        | none => cw.model.Call recs
      match r with
      | .error e => .error ("call model: " ++ e)
      | .ok (events, tokensUsed) => .ok (events, none, tokensUsed)
  match invoked with
  | .error e => (.error e, cw, db)
  | .ok (events, responseID, tokensUsed) =>
      let cw1 : ContextWindow := { cw with metricsTotal := cw.metricsTotal + tokensUsed }
      match persistEvents tc db contextID events "" with
      | (.error e, db1) => (.error e, cw1, db1)
      | (.ok lastMsg, db1) =>
          match responseID with
          | some rid => (.ok lastMsg, cw1, UpdateContextLastResponseID db1 contextID rid)
          | none => (.ok lastMsg, cw1, db1)

/-- Go `CallModel` (contextwindow.go): `CallModelWithOpts` with zero options. -/
def CallModel (tc : String → Nat) (cw : ContextWindow) (db : DB) :
    Except String String × ContextWindow × DB :=
  CallModelWithOpts tc cw db { disableTools := false }

/-- Go `LiveTokens` (contextwindow.go): sum of `EstTokens` over the live
records of the current context. -/
def LiveTokens (cw : ContextWindow) (db : DB) : Except String Nat :=
  match getContextIDByName db cw.currentContext with
  | none => .error ("live tokens in context: " ++ cw.currentContext)
  | some contextID =>
      .ok ((ListLiveRecords db contextID).foldl (fun n r => n + r.estTokens) 0)

/-- Go `TokenUsage` struct (contextwindow.go). The `Percent` field is
`float64 (live/max)` in Go; floating point is not modelled and no claim
depends on it. -/
structure TokenUsage where
  live : Nat
  total : Nat
  max : Nat
deriving DecidableEq, Repr

/-- Go method `TokenUsage` (contextwindow.go): live tokens from the store,
cumulative total from the in-memory `Metrics` counter, configured max. -/
def ContextWindow.TokenUsage (cw : ContextWindow) (db : DB) : Except String TokenUsage :=
  match LiveTokens cw db with
  | .error e => .error e
  | .ok live => .ok { live := live, total := cw.metricsTotal, max := cw.maxTokens }

/-- Go method `DeleteContext` on `ContextWindow` (contextwindow.go): when the
deleted name is the current context, first repoint the session — to a
get-or-created `"default"` context when at most one context exists, else to
the first listed context with a different name — then delete by name. State
mutated before a later failure is kept, as in the Go code. -/
def ContextWindow.DeleteContext (cw : ContextWindow) (db : DB) (name : String) :
    Except String Unit × ContextWindow × DB :=
  if name = cw.currentContext then
    let contexts := ListContexts db
    if contexts.length ≤ 1 then
      match CreateContext db "default" with
      | (.error e, db1) => (.error ("create replacement context: " ++ e), cw, db1)
      | (.ok _, db1) =>
          let cw1 : ContextWindow := { cw with currentContext := "default" }
          match DeleteContextByName db1 name with
          | .error e => (.error ("delete context: " ++ e), cw1, db1)
          | .ok db2 => (.ok (), cw1, db2)
    else
      let cw1 : ContextWindow :=
        match contexts.find? (fun c => decide (c.name ≠ name)) with
        | some c => { cw with currentContext := c.name }
        | none => cw
      match DeleteContextByName db name with
      | .error e => (.error ("delete context: " ++ e), cw1, db)
      | .ok db2 => (.ok (), cw1, db2)
  else
    match DeleteContextByName db name with
    | .error e => (.error ("delete context: " ++ e), cw, db)
    | .ok db2 => (.ok (), cw, db2)

/-- The embedded `default_summarize.md` prompt (its exact text is irrelevant
to every claim; only its use as the fallback when no override is configured
matters). -/
def defaultSummarizerPrompt : String :=
  "You are an assistant tasked with summarizing conversations."

/-- Go `SummaryResult` (summarizer.go). -/
structure SummaryResult where
  summary : String
  replaced : List Record
  origCount : Nat
  summaryCount : Nat
deriving DecidableEq, Repr

/-- Go `SummarizeLiveContextInContext` (summarizer.go): fails when no
summarizer is configured; resolves the context; fails when it has no live
records; otherwise prepends the (configured or default) summarization prompt
as a non-live record, calls the summarizer, and returns the candidate built
from the last returned event. The database is only read, never written. -/
def SummarizeLiveContextInContext (tc : String → Nat) (cw : ContextWindow) (db : DB)
    (contextName : String) : Except String SummaryResult :=
  match cw.summarizer with
  | none => .error "no summarizer configured"
  | some summarizerCall =>
  match getContextIDByName db contextName with
  | none => .error ("summarize context: get context ID for " ++ contextName)
  | some contextID =>
  let liveRecords := ListLiveRecords db contextID
  if liveRecords.length = 0 then
    .error "no live records to summarize"
  else
    let origCount := liveRecords.foldl (fun n r => n + r.estTokens) 0
    let prompt :=
      if cw.summarizerPrompt = "" then defaultSummarizerPrompt else cw.summarizerPrompt
    let summaryInput : List Record :=
      { id := 0, timestamp := 0, source := .prompt, content := prompt, live := false,
        estTokens := 0, contextID := contextID, responseID := none } :: liveRecords
    match summarizerCall summaryInput with
    | .error e => .error ("summarizer call failed: " ++ e)
    | .ok (events, _) =>
        match events.getLast? with
        | none => .error "summarizer returned no events"
        | some lastEvent =>
            .ok { summary := lastEvent.content, replaced := liveRecords,
                  origCount := origCount, summaryCount := tc lastEvent.content }

/-- Go `SummarizeLiveContext` (summarizer.go): summarize the current context. -/
def SummarizeLiveContext (tc : String → Nat) (cw : ContextWindow) (db : DB) :
    Except String SummaryResult :=
  SummarizeLiveContextInContext tc cw db cw.currentContext

/-- Go `AcceptSummaryInContext` (summarizer.go): one transaction that marks
every replaced record non-live (`markRecordNotAlive` by id) and inserts one
new live model-response record holding the summary text; on failure the
transaction rolls back, so the original database is returned. -/
def AcceptSummaryInContext (tc : String → Nat) (db : DB) (result : SummaryResult)
    (contextName : String) : Except String Unit × DB :=
  match getContextIDByName db contextName with
  | none => (.error ("accept summary: get context ID for " ++ contextName), db)
  | some contextID =>
      let staged := result.replaced.foldl (fun d r => markRecordNotAlive d r.id) db
      match insertRecordTx tc staged contextID .modelResp result.summary true with
      | (.error e, _) => (.error ("insert summary: " ++ e), db)
      | (.ok _, db1) => (.ok (), db1)

/-- Go `AcceptSummary` (summarizer.go): accept into the current context. -/
def AcceptSummary (tc : String → Nat) (cw : ContextWindow) (db : DB)
    (result : SummaryResult) : Except String Unit × DB :=
  AcceptSummaryInContext tc db result cw.currentContext

/-- Go `RejectSummary` (summarizer.go): the body is empty — rejecting a
candidate performs no state change at all. The database is made explicit
here to state that: the function returns it untouched. -/
def RejectSummary (db : DB) (_result : SummaryResult) : DB :=
  db

/-! Sample records used by the concrete scenarios in the claims. -/

/-- A live user-prompt record. -/
def samplePrompt (n : Nat) (content : String) : Record :=
  { id := n, timestamp := n, source := .prompt, content := content, live := true,
    estTokens := 1, contextID := "c", responseID := none }

/-- A live model-response record carrying the given continuation token. -/
def sampleResp (n : Nat) (content : String) (token : Option String) : Record :=
  { id := n, timestamp := n, source := .modelResp, content := content, live := true,
    estTokens := 1, contextID := "c", responseID := token }

/-- A live tool-call record. -/
def sampleToolCall (n : Nat) : Record :=
  { id := n, timestamp := n, source := .toolCall, content := "f()", live := true,
    estTokens := 1, contextID := "c", responseID := none }

/-- Helper for C1: any input set containing a model-response record with an
absent or empty continuation token is ineligible for server-side threading. -/
theorem canUse_eq_false_of_missing_token (inputs : List Record) (r : Record)
    (hr : r ∈ inputs) (hsrc : r.source = RecordType.modelResp)
    (htok : hasNonEmptyResponseID r = false) :
    canUseServerSideThreading inputs = false := by
  unfold canUseServerSideThreading
  by_cases hA :
      (inputs.any fun x =>
        decide (x.source = RecordType.toolCall) || decide (x.source = RecordType.toolOutput)) = true
  · rw [if_pos hA]
  · rw [if_neg hA]
    by_cases hB :
        (match inputs.reverse.find? (fun x => decide (x.source = RecordType.modelResp)) with
         | some lastModelResponse => !hasNonEmptyResponseID lastModelResponse
         | none => false) = true
    · rw [if_pos hB]
    · rw [if_neg hB]
      have hMissing :
          (inputs.any fun x =>
            decide (x.source = RecordType.modelResp) && !hasNonEmptyResponseID x) = true := by
        rw [List.any_eq_true]
        exact ⟨r, hr, by simp [hsrc, htok]⟩
      by_cases hIDs :
          (inputs.any fun x =>
            decide (x.source = RecordType.modelResp) && hasNonEmptyResponseID x) = true
      · simp only [hIDs, hMissing, Bool.and_self, if_true]
      · exfalso
        apply hB
        have hFound :
            (inputs.reverse.find? (fun x => decide (x.source = RecordType.modelResp))).isSome := by
          rw [List.find?_isSome]
          exact ⟨r, List.mem_reverse.mpr hr, by simp [hsrc]⟩
        obtain ⟨r0, hr0⟩ := Option.isSome_iff_exists.mp hFound
        have hr0src : r0.source = RecordType.modelResp := by
          have := List.find?_some hr0
          simpa using this
        have hr0mem : r0 ∈ inputs := List.mem_reverse.mp (List.mem_of_find?_eq_some hr0)
        have hr0tok : hasNonEmptyResponseID r0 = false := by
          by_contra hcon
          apply hIDs
          rw [List.any_eq_true]
          exact ⟨r0, hr0mem, by simp [hr0src, Bool.of_not_eq_false hcon]⟩
        rw [hr0]
        simp [hr0tok]

/-- Helper for C1: the eligibility predicate holds exactly when the input
set has no tool-call/tool-output record and every model-response record in
it carries a non-empty continuation token. -/
theorem canUse_iff (inputs : List Record) :
    canUseServerSideThreading inputs = true ↔
      ((∀ r ∈ inputs, r.source ≠ RecordType.toolCall ∧ r.source ≠ RecordType.toolOutput) ∧
       ∀ r ∈ inputs, r.source = RecordType.modelResp → hasNonEmptyResponseID r = true) := by
  constructor
  · intro h
    constructor
    · intro r hr
      by_contra hcon
      have hA :
          (inputs.any fun x =>
            decide (x.source = RecordType.toolCall) || decide (x.source = RecordType.toolOutput)) = true := by
        rw [List.any_eq_true]
        refine ⟨r, hr, ?_⟩
        rcases not_and_or.mp hcon with hc | hc <;> simp [not_not.mp hc]
      rw [canUseServerSideThreading, if_pos hA] at h
      exact Bool.false_ne_true h
    · intro r hr hsrc
      by_contra hcon
      have := canUse_eq_false_of_missing_token inputs r hr hsrc (Bool.not_eq_true _ ▸ hcon)
      rw [this] at h
      exact Bool.false_ne_true h
  · rintro ⟨hTools, hTok⟩
    unfold canUseServerSideThreading
    have hA :
        (inputs.any fun x =>
          decide (x.source = RecordType.toolCall) || decide (x.source = RecordType.toolOutput)) = false := by
      rw [List.any_eq_false]
      intro r hr
      have := hTools r hr
      simp [this.1, this.2]
    rw [if_neg (by simp [hA])]
    have hB :
        (match inputs.reverse.find? (fun x => decide (x.source = RecordType.modelResp)) with
         | some lastModelResponse => !hasNonEmptyResponseID lastModelResponse
         | none => false) = false := by
      cases hfind : inputs.reverse.find? (fun x => decide (x.source = RecordType.modelResp)) with
      | none => simp
      | some r0 =>
          have hr0src : r0.source = RecordType.modelResp := by
            have := List.find?_some hfind
            simpa using this
          have hr0mem : r0 ∈ inputs := List.mem_reverse.mp (List.mem_of_find?_eq_some hfind)
          simp [hTok r0 hr0mem hr0src]
    rw [if_neg (by simp [hB])]
    have hMissing :
        (inputs.any fun x =>
          decide (x.source = RecordType.modelResp) && !hasNonEmptyResponseID x) = false := by
      rw [List.any_eq_false]
      intro r hr
      by_cases hsrc : r.source = RecordType.modelResp
      · simp [hTok r hr hsrc]
      · simp [hsrc]
    simp [hMissing]

/-- C1: the server-side-threading eligibility predicate holds iff the input
set contains no tool-call or tool-output records and every model-response
record carries a non-empty continuation token (vacuously eligible with no
model-response records); in particular `[Prompt, ModelResp(token=T1),
Prompt]` is eligible, inserting a `ToolCall` record at any of the four
positions makes it ineligible, and a model-response without a token followed
by one with a token is ineligible. -/
theorem C1_canUseServerSideThreading_spec :
    (∀ inputs : List Record,
      canUseServerSideThreading inputs = true ↔
        ((∀ r ∈ inputs, r.source ≠ RecordType.toolCall ∧ r.source ≠ RecordType.toolOutput) ∧
         ∀ r ∈ inputs, r.source = RecordType.modelResp → hasNonEmptyResponseID r = true)) ∧
    canUseServerSideThreading
      [samplePrompt 1 "p1", sampleResp 2 "r" (some "T1"), samplePrompt 3 "p2"] = true ∧
    canUseServerSideThreading
      [sampleToolCall 0, samplePrompt 1 "p1", sampleResp 2 "r" (some "T1"),
       samplePrompt 3 "p2"] = false ∧
    canUseServerSideThreading
      [samplePrompt 1 "p1", sampleToolCall 0, sampleResp 2 "r" (some "T1"),
       samplePrompt 3 "p2"] = false ∧
    canUseServerSideThreading
      [samplePrompt 1 "p1", sampleResp 2 "r" (some "T1"), sampleToolCall 0,
       samplePrompt 3 "p2"] = false ∧
    canUseServerSideThreading
      [samplePrompt 1 "p1", sampleResp 2 "r" (some "T1"), samplePrompt 3 "p2",
       sampleToolCall 0] = false ∧
    canUseServerSideThreading
      [sampleResp 1 "a" none, sampleResp 2 "b" (some "T1")] = false :=
  ⟨canUse_iff, by decide, by decide, by decide, by decide, by decide, by decide⟩

/-- The record-table ordering invariant: timestamps are monotonically
non-decreasing in insertion order (spec §3; maintained by every insert,
which stamps rows with the current clock). -/
def recordsOrdered (l : List Record) : Prop :=
  l.Pairwise (fun a b => a.timestamp ≤ b.timestamp)

instance (l : List Record) : Decidable (recordsOrdered l) := by
  unfold recordsOrdered
  exact List.instDecidablePairwise l

/-- Helper: a timestamp-ordered record list is sorted for the Bool
comparison `recordTsLE` used to model `ORDER BY ts ASC`. -/
theorem pairwise_recordTsLE {l : List Record} (h : recordsOrdered l) :
    l.Pairwise (fun a b => recordTsLE a b = true) := by
  refine h.imp ?_
  intro a b hab
  simp [recordTsLE, hab]

/-- Helper: under the ordering invariant, `listRecordsWhere` (filter plus
`ORDER BY ts ASC`) returns exactly the filtered table in insertion order. -/
theorem listRecordsWhere_eq_filter (db : DB) (p : Record → Bool)
    (h : recordsOrdered db.records) :
    listRecordsWhere db p = db.records.filter p := by
  unfold listRecordsWhere
  have hsorted : (db.records.filter p).Pairwise (fun a b => recordTsLE a b = true) :=
    (pairwise_recordTsLE h).filter p
  exact List.mergeSort_of_sorted hsorted

/-- C8: under the timestamp-ordering invariant of the record table,
`ListLiveRecords` returns exactly the records of the context with
`live = true`, in insertion order (the filtered table itself), hence in
non-decreasing timestamp order; and a record is in the result iff it is a
live record of the context. -/
theorem C8_listLive_spec (db : DB) (contextID : String)
    (h : recordsOrdered db.records) :
    ListLiveRecords db contextID =
      db.records.filter (fun r => decide (r.contextID = contextID) && r.live) ∧
    (∀ r : Record, r ∈ ListLiveRecords db contextID ↔
      (r ∈ db.records ∧ r.contextID = contextID ∧ r.live = true)) ∧
    recordsOrdered (ListLiveRecords db contextID) := by
  have heq := listRecordsWhere_eq_filter db
    (fun r => decide (r.contextID = contextID) && r.live) h
  refine ⟨heq, ?_, ?_⟩
  · intro r
    rw [ListLiveRecords, heq, List.mem_filter]
    simp
  · rw [ListLiveRecords, heq]
    exact h.filter _

/-- C8 witness: a concrete two-record table (one dead record interleaved)
evaluated through the theorem. -/
theorem C8_listLive_spec_witness :
    recordsOrdered (DB.records
      { contexts := [], records :=
          [samplePrompt 1 "a", { samplePrompt 2 "b" with live := false },
           sampleResp 3 "r" none],
        nextRecordID := 4, nextContextID := 0, now := 3, insertBudget := none }) ∧
    ListLiveRecords
      { contexts := [], records :=
          [samplePrompt 1 "a", { samplePrompt 2 "b" with live := false },
           sampleResp 3 "r" none],
        nextRecordID := 4, nextContextID := 0, now := 3, insertBudget := none } "c" =
      [samplePrompt 1 "a", sampleResp 3 "r" none] := by
  constructor
  · decide
  · have := (C8_listLive_spec
      { contexts := [], records :=
          [samplePrompt 1 "a", { samplePrompt 2 "b" with live := false },
           sampleResp 3 "r" none],
        nextRecordID := 4, nextContextID := 0, now := 3, insertBudget := none }
      "c" (by decide)).1
    rw [this]
    decide

/-- Helper: `SetContextServerSideThreading` commutes with name lookup — the
looked-up row is the old row with only its threading flag possibly updated. -/
theorem GetContextByName_set_threading (db : DB) (name cid : String) (b : Bool) :
    GetContextByName (SetContextServerSideThreading db cid b) name =
      (GetContextByName db name).map
        (fun c => if c.id = cid then { c with useServerSideThreading := b } else c) := by
  unfold GetContextByName SetContextServerSideThreading
  rw [List.find?_map]
  have hcomp : ((fun c => decide (c.name = name)) ∘ fun c =>
      if c.id = cid then { c with useServerSideThreading := b } else c) =
      (fun c : Context => decide (c.name = name)) := by
    funext c
    by_cases hid : c.id = cid <;> simp [hid, Function.comp]
  rw [hcomp]

/-- C9: get-or-create is idempotent — after one `CreateContextWithThreading`
call returned a context, calling it again with the same name and the same
threading mode returns the very same context and leaves the registry (and
the whole database) unchanged: identical identity both times, no duplicate
row inserted. -/
theorem C9_create_idempotent (db : DB) (name : String) (sst : Bool)
    (c1 : Context) (db1 : DB)
    (h1 : CreateContextWithThreading db name sst = (.ok c1, db1)) :
    CreateContextWithThreading db1 name sst = (.ok c1, db1) := by
  unfold CreateContextWithThreading at h1 ⊢
  by_cases hname : name = ""
  · rw [if_pos hname] at h1
    exact absurd (congrArg Prod.fst h1) (by simp)
  rw [if_neg hname] at h1 ⊢
  cases hfind : GetContextByName db name with
  | some existing =>
      rw [hfind] at h1
      simp only [] at h1
      by_cases hmode : existing.useServerSideThreading ≠ sst
      · rw [if_pos hmode] at h1
        simp only [Prod.mk.injEq, Except.ok.injEq] at h1
        obtain ⟨hc, hdb⟩ := h1
        subst hc
        subst hdb
        have hfind1 :
            GetContextByName (SetContextServerSideThreading db existing.id sst) name =
            some { existing with useServerSideThreading := sst } := by
          rw [GetContextByName_set_threading, hfind]
          simp
        simp [hfind1]
      · rw [if_neg hmode] at h1
        simp only [Prod.mk.injEq, Except.ok.injEq] at h1
        obtain ⟨hc, hdb⟩ := h1
        subst hc
        subst hdb
        simp [hfind, hmode]
  | none =>
      rw [hfind] at h1
      simp only [] at h1
      simp only [Prod.mk.injEq, Except.ok.injEq] at h1
      obtain ⟨hc, hdb⟩ := h1
      have hfind1 : GetContextByName db1 name = some c1 := by
        rw [← hdb, ← hc]
        unfold GetContextByName at hfind ⊢
        simp only [List.find?_append, hfind, Option.none_or]
        simp
      have hmode1 : c1.useServerSideThreading = sst := by
        rw [← hc]
      simp [hfind1, hmode1]

/-- C9 witness: creating `"demo"` twice in the empty store through the
theorem, with the concrete first-call result discharged by evaluation. -/
theorem C9_create_idempotent_witness :
    CreateContextWithThreading DB.empty "demo" false =
      (.ok { id := "ctx-0", name := "demo", startTime := 0,
             useServerSideThreading := false, lastResponseID := none },
       { contexts := [{ id := "ctx-0", name := "demo", startTime := 0,
                        useServerSideThreading := false, lastResponseID := none }],
         records := [], nextRecordID := 1, nextContextID := 1, now := 0,
         insertBudget := none }) ∧
    CreateContextWithThreading
      { contexts := [{ id := "ctx-0", name := "demo", startTime := 0,
                       useServerSideThreading := false, lastResponseID := none }],
        records := [], nextRecordID := 1, nextContextID := 1, now := 0,
        insertBudget := none } "demo" false =
      (.ok { id := "ctx-0", name := "demo", startTime := 0,
             useServerSideThreading := false, lastResponseID := none },
       { contexts := [{ id := "ctx-0", name := "demo", startTime := 0,
                        useServerSideThreading := false, lastResponseID := none }],
         records := [], nextRecordID := 1, nextContextID := 1, now := 0,
         insertBudget := none }) :=
  ⟨by decide, C9_create_idempotent DB.empty "demo" false _ _ (by decide)⟩

/-- C6: `SummarizeLiveContextInContext` fails with the `no summarizer
configured` error whenever no summarizer is set, and fails whenever the
context has no live records (with the dedicated error when a summarizer is
present, and still with an error when both conditions hold); in every such
case no `SummaryResult` is produced (the `Except` is an error), and no state
is modified — the embedded function only reads the database and returns no
updated state by construction. -/
theorem C6_summarize_failures (tc : String → Nat) (cw : ContextWindow) (db : DB)
    (contextName : String) :
    (cw.summarizer = none →
      SummarizeLiveContextInContext tc cw db contextName =
        .error "no summarizer configured") ∧
    (∀ contextID, getContextIDByName db contextName = some contextID →
      ListLiveRecords db contextID = [] →
      ∃ e, SummarizeLiveContextInContext tc cw db contextName = .error e) ∧
    (∀ summarizerCall, cw.summarizer = some summarizerCall →
      ∀ contextID, getContextIDByName db contextName = some contextID →
      ListLiveRecords db contextID = [] →
      SummarizeLiveContextInContext tc cw db contextName =
        .error "no live records to summarize") := by
  refine ⟨?_, ?_, ?_⟩
  · intro hnone
    unfold SummarizeLiveContextInContext
    rw [hnone]
  · intro contextID hctx hlive
    cases hsum : cw.summarizer with
    | none =>
        exact ⟨"no summarizer configured", by unfold SummarizeLiveContextInContext; rw [hsum]⟩
    | some summarizerCall =>
        refine ⟨"no live records to summarize", ?_⟩
        unfold SummarizeLiveContextInContext
        rw [hsum]
        simp only []
        rw [hctx]
        simp only [hlive]
        rfl
  · intro summarizerCall hsum contextID hctx hlive
    unfold SummarizeLiveContextInContext
    rw [hsum]
    simp only []
    rw [hctx]
    simp only [hlive]
    rfl

/-- C6 witness: a session without a summarizer over a store whose only
context has no records, run through each conjunct of the theorem. -/
theorem C6_summarize_failures_witness :
    SummarizeLiveContextInContext (fun s => s.length)
      (NewContextWindow
        { Call := fun _ => .ok ([], 0), threadingCapable := none,
          callOptsCapable := none } "demo")
      { contexts := [{ id := "ctx-0", name := "demo", startTime := 0,
                       useServerSideThreading := false, lastResponseID := none }],
        records := [], nextRecordID := 1, nextContextID := 1, now := 0,
        insertBudget := none } "demo" = .error "no summarizer configured" :=
  (C6_summarize_failures (fun s => s.length)
    (NewContextWindow
      { Call := fun _ => .ok ([], 0), threadingCapable := none,
        callOptsCapable := none } "demo")
    { contexts := [{ id := "ctx-0", name := "demo", startTime := 0,
                     useServerSideThreading := false, lastResponseID := none }],
      records := [], nextRecordID := 1, nextContextID := 1, now := 0,
      insertBudget := none } "demo").1 rfl

/-- Helper: a record-wise update that keeps timestamps keeps the table
ordering invariant. -/
theorem recordsOrdered_map (l : List Record) (f : Record → Record)
    (hf : ∀ r, (f r).timestamp = r.timestamp) (h : recordsOrdered l) :
    recordsOrdered (l.map f) := by
  unfold recordsOrdered at h ⊢
  rw [List.pairwise_map]
  refine h.imp ?_
  intro a b hab
  rw [hf, hf]
  exact hab

/-- Helper: appending a record stamped at or after every existing timestamp
keeps the table ordering invariant. -/
theorem recordsOrdered_append_one (l : List Record) (r : Record)
    (h : recordsOrdered l) (hr : ∀ x ∈ l, x.timestamp ≤ r.timestamp) :
    recordsOrdered (l ++ [r]) := by
  unfold recordsOrdered at h ⊢
  rw [List.pairwise_append]
  exact ⟨h, List.pairwise_singleton _ _, fun x hx y hy => by
    rw [List.mem_singleton] at hy
    subst hy
    exact hr x hx⟩

/-- Helper: the successful run of `SetSystemPrompt` — with the context
resolved and no injected storage failure, the call retires every
system-prompt record of the context and appends the new live one, in one
committed transaction. -/
theorem SetSystemPrompt_ok (tc : String → Nat) (cw : ContextWindow) (db : DB)
    (t : String) (contextID : String)
    (hctx : getContextIDByName db cw.currentContext = some contextID)
    (hbudget : db.insertBudget = none) :
    SetSystemPrompt tc cw db t =
      (.ok (),
       { db with
         records := db.records.map (fun r =>
             if r.contextID = contextID ∧ r.source = RecordType.systemPrompt then
               { r with live := false } else r) ++
           [{ id := db.nextRecordID, timestamp := db.now,
              source := RecordType.systemPrompt, content := t, live := true,
              estTokens := tc t, contextID := contextID, responseID := none }],
         nextRecordID := db.nextRecordID + 1 }) := by
  unfold SetSystemPrompt insertRecordTx insertRecordTxWithResponseID InsertRecordWithResponseID
  rw [hctx]
  simp only [hbudget]
  rfl

/-- Helper: the failing run of `SetSystemPrompt` — when the record insert
fails, the transaction rolls back and the original database is returned. -/
theorem SetSystemPrompt_rollback (tc : String → Nat) (cw : ContextWindow) (db : DB)
    (t : String) (contextID : String)
    (hctx : getContextIDByName db cw.currentContext = some contextID)
    (hbudget : db.insertBudget = some 0) :
    SetSystemPrompt tc cw db t =
      (.error "set system prompt: insert record: sql: database is closed", db) := by
  unfold SetSystemPrompt insertRecordTx insertRecordTxWithResponseID InsertRecordWithResponseID
  rw [hctx]
  simp only [hbudget]
  rfl

/-- C4: calling `SetSystemPrompt` twice in sequence leaves exactly one live
system-prompt record in the context — the one of the second call — while the
first call's record remains present but retired, both being returned by
`listAll` (`ListRecordsInContext`); moreover every successful call leaves
exactly one live system-prompt record in the context (so the at-most-one
invariant is preserved), and each call is one transaction: when its insert
fails the database is returned unchanged. -/
theorem C4_set_system_prompt_twice (tc : String → Nat) (cw : ContextWindow) (db : DB)
    (t1 t2 : String) (contextID : String)
    (hctx : getContextIDByName db cw.currentContext = some contextID)
    (hbudget : db.insertBudget = none)
    (hord : recordsOrdered db.records)
    (hnow : ∀ r ∈ db.records, r.timestamp ≤ db.now) :
    ∃ db1 db2 : DB,
      SetSystemPrompt tc cw db t1 = (.ok (), db1) ∧
      SetSystemPrompt tc cw db1 t2 = (.ok (), db2) ∧
      db2.records.filter (fun r => decide (r.contextID = contextID) &&
          decide (r.source = RecordType.systemPrompt) && r.live) =
        [{ id := db.nextRecordID + 1, timestamp := db.now,
           source := RecordType.systemPrompt, content := t2, live := true,
           estTokens := tc t2, contextID := contextID, responseID := none }] ∧
      { id := db.nextRecordID, timestamp := db.now,
        source := RecordType.systemPrompt, content := t1, live := false,
        estTokens := tc t1, contextID := contextID, responseID := none } ∈
          ListRecordsInContext db2 contextID ∧
      { id := db.nextRecordID + 1, timestamp := db.now,
        source := RecordType.systemPrompt, content := t2, live := true,
        estTokens := tc t2, contextID := contextID, responseID := none } ∈
          ListRecordsInContext db2 contextID ∧
      (∀ dbx : DB, ∀ t : String, dbx.insertBudget = some 0 →
        getContextIDByName dbx cw.currentContext = some contextID →
        SetSystemPrompt tc cw dbx t =
          (.error "set system prompt: insert record: sql: database is closed", dbx)) := by
  have h1 := SetSystemPrompt_ok tc cw db t1 contextID hctx hbudget
  set retire : Record → Record := fun r =>
    if r.contextID = contextID ∧ r.source = RecordType.systemPrompt then
      { r with live := false } else r with hretire
  set rec1 : Record :=
    { id := db.nextRecordID, timestamp := db.now, source := RecordType.systemPrompt,
      content := t1, live := true, estTokens := tc t1, contextID := contextID,
      responseID := none } with hrec1
  set rec2 : Record :=
    { id := db.nextRecordID + 1, timestamp := db.now, source := RecordType.systemPrompt,
      content := t2, live := true, estTokens := tc t2, contextID := contextID,
      responseID := none } with hrec2
  set db1 : DB :=
    { db with records := db.records.map retire ++ [rec1],
              nextRecordID := db.nextRecordID + 1 } with hdb1
  have hctx1 : getContextIDByName db1 cw.currentContext = some contextID := hctx
  have hbudget1 : db1.insertBudget = none := hbudget
  have h2 := SetSystemPrompt_ok tc cw db1 t2 contextID hctx1 hbudget1
  set db2 : DB :=
    { db1 with records := db1.records.map retire ++ [rec2],
               nextRecordID := db1.nextRecordID + 1 } with hdb2
  have hrecords2 : db2.records =
      (db.records.map retire ++ [rec1]).map retire ++ [rec2] := rfl
  have hretire_ts : ∀ r : Record, (retire r).timestamp = r.timestamp := by
    intro r
    rw [hretire]
    by_cases hc : r.contextID = contextID ∧ r.source = RecordType.systemPrompt <;>
      simp [hc]
  have hretire_cid : ∀ r : Record, (retire r).contextID = r.contextID := by
    intro r
    rw [hretire]
    by_cases hc : r.contextID = contextID ∧ r.source = RecordType.systemPrompt <;>
      simp [hc]
  have hord2 : recordsOrdered db2.records := by
    rw [hrecords2]
    refine recordsOrdered_append_one _ _ ?_ ?_
    · refine recordsOrdered_map _ _ hretire_ts ?_
      refine recordsOrdered_append_one _ _ ?_ ?_
      · exact recordsOrdered_map _ _ hretire_ts hord
      · intro x hx
        obtain ⟨r0, hr0, hfx⟩ := List.mem_map.mp hx
        rw [← hfx, hretire_ts]
        exact hnow r0 hr0
    · intro x hx
      obtain ⟨r0, hr0, hfx⟩ := List.mem_map.mp hx
      rw [← hfx, hretire_ts]
      rcases List.mem_append.mp hr0 with hr0l | hr0r
      · obtain ⟨r1, hr1, hfx1⟩ := List.mem_map.mp hr0l
        rw [← hfx1, hretire_ts]
        exact hnow r1 hr1
      · rw [List.mem_singleton] at hr0r
        subst hr0r
        rw [hrec1]
  have hretired_dead : ∀ x ∈ (db.records.map retire ++ [rec1]).map retire,
      (decide (x.contextID = contextID) &&
        decide (x.source = RecordType.systemPrompt) && x.live) = false := by
    intro x hx
    obtain ⟨r0, _, hfx⟩ := List.mem_map.mp hx
    rw [← hfx, hretire]
    by_cases hc : r0.contextID = contextID ∧ r0.source = RecordType.systemPrompt
    · simp [hc]
    · rcases not_and_or.mp hc with hc1 | hc1 <;> simp [hc1]
  refine ⟨db1, db2, h1, h2, ?_, ?_, ?_, ?_⟩
  · rw [hrecords2, List.filter_append]
    have hnil : ((db.records.map retire ++ [rec1]).map retire).filter
        (fun r => decide (r.contextID = contextID) &&
          decide (r.source = RecordType.systemPrompt) && r.live) = [] := by
      rw [List.filter_eq_nil_iff]
      intro x hx
      rw [hretired_dead x hx]
      exact Bool.false_ne_true
    rw [hnil]
    simp [hrec2]
  · have hmem : retire rec1 ∈ db2.records := by
      rw [hrecords2]
      refine List.mem_append.mpr (Or.inl ?_)
      exact List.mem_map.mpr ⟨rec1, List.mem_append.mpr (Or.inr (List.mem_singleton.mpr rfl)), rfl⟩
    have hval : retire rec1 =
        { id := db.nextRecordID, timestamp := db.now,
          source := RecordType.systemPrompt, content := t1, live := false,
          estTokens := tc t1, contextID := contextID, responseID := none } := by
      rw [hretire, hrec1]
      simp
    rw [← hval]
    unfold ListRecordsInContext
    rw [listRecordsWhere_eq_filter _ _ hord2]
    rw [List.mem_filter]
    refine ⟨hmem, ?_⟩
    rw [hval]
    simp
  · unfold ListRecordsInContext
    rw [listRecordsWhere_eq_filter _ _ hord2]
    rw [List.mem_filter]
    constructor
    · rw [hrecords2]
      exact List.mem_append.mpr (Or.inr (List.mem_singleton.mpr rfl))
    · simp [hrec2]
  · intro dbx t hx hcx
    exact SetSystemPrompt_rollback tc cw dbx t contextID hcx hx

/-- C4 witness: a store holding one live system-prompt record and its
context, evaluated through the theorem. -/
theorem C4_set_system_prompt_twice_witness :
    ∃ db1 db2 : DB,
      SetSystemPrompt (fun s => s.length)
        (NewContextWindow
          { Call := fun _ => .ok ([], 0), threadingCapable := none,
            callOptsCapable := none } "demo")
        { contexts := [{ id := "ctx-0", name := "demo", startTime := 0,
                         useServerSideThreading := false, lastResponseID := none }],
          records := [], nextRecordID := 1, nextContextID := 1, now := 0,
          insertBudget := none } "sp one" = (.ok (), db1) ∧
      SetSystemPrompt (fun s => s.length)
        (NewContextWindow
          { Call := fun _ => .ok ([], 0), threadingCapable := none,
            callOptsCapable := none } "demo") db1 "sp two" = (.ok (), db2) ∧
      db2.records.filter (fun r => decide (r.contextID = "ctx-0") &&
          decide (r.source = RecordType.systemPrompt) && r.live) =
        [{ id := 2, timestamp := 0, source := RecordType.systemPrompt,
           content := "sp two", live := true, estTokens := 6,
           contextID := "ctx-0", responseID := none }] ∧
      { id := 1, timestamp := 0, source := RecordType.systemPrompt,
        content := "sp one", live := false, estTokens := 6,
        contextID := "ctx-0", responseID := none } ∈
          ListRecordsInContext db2 "ctx-0" ∧
      { id := 2, timestamp := 0, source := RecordType.systemPrompt,
        content := "sp two", live := true, estTokens := 6,
        contextID := "ctx-0", responseID := none } ∈
          ListRecordsInContext db2 "ctx-0" := by
  obtain ⟨db1, db2, h1, h2, h3, h4, h5, _⟩ :=
    C4_set_system_prompt_twice (fun s => s.length)
      (NewContextWindow
        { Call := fun _ => .ok ([], 0), threadingCapable := none,
          callOptsCapable := none } "demo")
      { contexts := [{ id := "ctx-0", name := "demo", startTime := 0,
                       useServerSideThreading := false, lastResponseID := none }],
        records := [], nextRecordID := 1, nextContextID := 1, now := 0,
        insertBudget := none } "sp one" "sp two" "ctx-0" rfl rfl
      (by unfold recordsOrdered; exact List.Pairwise.nil) (by intro r hr; cases hr)
  exact ⟨db1, db2, h1, h2, h3, h4, h5⟩

/-- Helper: folding `markRecordNotAlive` over a batch of records turns the
table into a single map that clears the live flag of every row whose id is
in the batch, leaving all other state untouched. -/
theorem foldl_mark_spec (ids : List Record) : ∀ db : DB,
    ids.foldl (fun d r => markRecordNotAlive d r.id) db =
      { db with records := db.records.map (fun r =>
          if r.id ∈ ids.map Record.id then { r with live := false } else r) } := by
  induction ids with
  | nil =>
      intro db
      simp
  | cons a tl ih =>
      intro db
      rw [List.foldl_cons, ih (markRecordNotAlive db a.id)]
      unfold markRecordNotAlive
      simp only []
      congr 1
      rw [List.map_map]
      congr 1
      funext r
      by_cases h1 : r.id = a.id
      · by_cases h2 : r.id ∈ tl.map Record.id <;> simp [Function.comp, h1, h2]
      · by_cases h2 : r.id ∈ tl.map Record.id <;> simp [Function.comp, h1, h2]

/-- Helper: the successful run of `AcceptSummaryInContext` — with the
context resolved and no injected storage failure, the transaction retires
every replaced record by id and appends the one new live summary record. -/
theorem AcceptSummaryInContext_ok (tc : String → Nat) (db : DB)
    (result : SummaryResult) (contextName contextID : String)
    (hctx : getContextIDByName db contextName = some contextID)
    (hbudget : db.insertBudget = none) :
    AcceptSummaryInContext tc db result contextName =
      (.ok (),
       { db with
         records := db.records.map (fun r =>
             if r.id ∈ result.replaced.map Record.id then { r with live := false }
             else r) ++
           [{ id := db.nextRecordID, timestamp := db.now,
              source := RecordType.modelResp, content := result.summary, live := true,
              estTokens := tc result.summary, contextID := contextID,
              responseID := none }],
         nextRecordID := db.nextRecordID + 1 }) := by
  unfold AcceptSummaryInContext insertRecordTx insertRecordTxWithResponseID
    InsertRecordWithResponseID
  rw [hctx]
  simp only [foldl_mark_spec]
  simp only [hbudget]
  rfl

/-- C5: accepting a `SummaryResult` built from the current live records
(with no intervening writes) atomically retires every listed record and
inserts exactly one new live model-response record holding the summary text:
afterwards `ListLiveRecords` is exactly the singleton summary record, every
replaced record remains present retired in `listAll`
(`ListRecordsInContext`); a mid-transaction insert failure rolls back
entirely, returning the database unchanged; and rejecting a candidate
changes nothing at all. -/
theorem C5_summary_accept_reject (tc : String → Nat) (db : DB)
    (result : SummaryResult) (contextName contextID : String)
    (hctx : getContextIDByName db contextName = some contextID)
    (hbudget : db.insertBudget = none)
    (hord : recordsOrdered db.records)
    (hnow : ∀ r ∈ db.records, r.timestamp ≤ db.now)
    (hrepl : result.replaced = ListLiveRecords db contextID) :
    ∃ db1 : DB,
      AcceptSummaryInContext tc db result contextName = (.ok (), db1) ∧
      ListLiveRecords db1 contextID =
        [{ id := db.nextRecordID, timestamp := db.now,
           source := RecordType.modelResp, content := result.summary, live := true,
           estTokens := tc result.summary, contextID := contextID,
           responseID := none }] ∧
      (∀ r ∈ result.replaced, { r with live := false } ∈
        ListRecordsInContext db1 contextID) ∧
      (∀ dbx : DB, ∀ resultx : SummaryResult, ∀ contextNamex contextIDx : String,
        dbx.insertBudget = some 0 →
        getContextIDByName dbx contextNamex = some contextIDx →
        AcceptSummaryInContext tc dbx resultx contextNamex =
          (.error "insert summary: insert record: sql: database is closed", dbx)) ∧
      (∀ dbx : DB, ∀ resultx : SummaryResult, RejectSummary dbx resultx = dbx) := by
  have hacc := AcceptSummaryInContext_ok tc db result contextName contextID hctx hbudget
  set F : Record → Record := fun r =>
    if r.id ∈ result.replaced.map Record.id then { r with live := false } else r
    with hF
  set s : Record :=
    { id := db.nextRecordID, timestamp := db.now, source := RecordType.modelResp,
      content := result.summary, live := true, estTokens := tc result.summary,
      contextID := contextID, responseID := none } with hs
  set db1 : DB :=
    { db with records := db.records.map F ++ [s],
              nextRecordID := db.nextRecordID + 1 } with hdb1
  have hF_ts : ∀ r : Record, (F r).timestamp = r.timestamp := by
    intro r
    rw [hF]
    by_cases hc : r.id ∈ result.replaced.map Record.id <;> simp [hc]
  have hord1 : recordsOrdered db1.records := by
    refine recordsOrdered_append_one _ _ (recordsOrdered_map _ _ hF_ts hord) ?_
    intro x hx
    obtain ⟨r0, hr0, hfx⟩ := List.mem_map.mp hx
    rw [← hfx, hF_ts]
    exact hnow r0 hr0
  have hlive_db : ListLiveRecords db contextID =
      db.records.filter (fun r => decide (r.contextID = contextID) && r.live) :=
    listRecordsWhere_eq_filter db _ hord
  refine ⟨db1, hacc, ?_, ?_, ?_, ?_⟩
  · rw [ListLiveRecords, listRecordsWhere_eq_filter db1 _ hord1]
    have : db1.records = db.records.map F ++ [s] := rfl
    rw [this, List.filter_append]
    have hnil : (db.records.map F).filter
        (fun r => decide (r.contextID = contextID) && r.live) = [] := by
      rw [List.filter_eq_nil_iff]
      intro x hx
      obtain ⟨r0, hr0, hfx⟩ := List.mem_map.mp hx
      by_cases hid : r0.id ∈ result.replaced.map Record.id
      · rw [← hfx, hF]
        simp [hid]
      · have hxr : x = r0 := by rw [← hfx, hF]; simp [hid]
        subst hxr
        intro hcon
        apply hid
        have hx_mem : x ∈ ListLiveRecords db contextID := by
          rw [hlive_db, List.mem_filter]
          simp only [Bool.and_eq_true, decide_eq_true_eq] at hcon
          exact ⟨hr0, by simp [hcon.1, hcon.2]⟩
        rw [← hrepl] at hx_mem
        exact List.mem_map.mpr ⟨x, hx_mem, rfl⟩
    rw [hnil]
    simp [hs]
  · intro r hr
    have hrdb : r ∈ db.records ∧ r.contextID = contextID ∧ r.live = true := by
      rw [hrepl, hlive_db, List.mem_filter] at hr
      refine ⟨hr.1, ?_, ?_⟩
      · have := hr.2
        simp only [Bool.and_eq_true, decide_eq_true_eq] at this
        exact this.1
      · have := hr.2
        simp only [Bool.and_eq_true, decide_eq_true_eq] at this
        exact this.2
    have hFr : F r = { r with live := false } := by
      rw [hF]
      have : r.id ∈ result.replaced.map Record.id := List.mem_map.mpr ⟨r, hr, rfl⟩
      simp [this]
    rw [ListRecordsInContext, listRecordsWhere_eq_filter db1 _ hord1]
    rw [List.mem_filter]
    constructor
    · have : F r ∈ db.records.map F := List.mem_map.mpr ⟨r, hrdb.1, rfl⟩
      rw [hFr] at this
      exact List.mem_append.mpr (Or.inl this)
    · simp [hrdb.2.1]
  · intro dbx resultx contextNamex contextIDx hbx hcx
    unfold AcceptSummaryInContext insertRecordTx insertRecordTxWithResponseID
      InsertRecordWithResponseID
    rw [hcx]
    simp only [foldl_mark_spec]
    simp only [hbx]
    rfl
  · intro dbx resultx
    rfl

/-- C5 witness: a two-record live context summarized into `"sum"`, run
through the theorem; the replaced list is the concrete live-record list. -/
theorem C5_summary_accept_reject_witness :
    ∃ db1 : DB,
      AcceptSummaryInContext (fun s => s.length)
        { contexts := [{ id := "c", name := "demo", startTime := 0,
                         useServerSideThreading := false, lastResponseID := none }],
          records := [samplePrompt 1 "a", sampleResp 2 "r" none],
          nextRecordID := 3, nextContextID := 1, now := 2, insertBudget := none }
        { summary := "sum", replaced := [samplePrompt 1 "a", sampleResp 2 "r" none],
          origCount := 2, summaryCount := 3 } "demo" = (.ok (), db1) ∧
      ListLiveRecords db1 "c" =
        [{ id := 3, timestamp := 2, source := RecordType.modelResp,
           content := "sum", live := true, estTokens := 3, contextID := "c",
           responseID := none }] := by
  have hrepl : ([samplePrompt 1 "a", sampleResp 2 "r" none] : List Record) =
      ListLiveRecords
        { contexts := [{ id := "c", name := "demo", startTime := 0,
                         useServerSideThreading := false, lastResponseID := none }],
          records := [samplePrompt 1 "a", sampleResp 2 "r" none],
          nextRecordID := 3, nextContextID := 1, now := 2, insertBudget := none } "c" := by
    rw [ListLiveRecords, listRecordsWhere_eq_filter _ _ (by decide)]
    decide
  obtain ⟨db1, h1, h2, _, _, _⟩ :=
    C5_summary_accept_reject (fun s => s.length)
      { contexts := [{ id := "c", name := "demo", startTime := 0,
                       useServerSideThreading := false, lastResponseID := none }],
        records := [samplePrompt 1 "a", sampleResp 2 "r" none],
        nextRecordID := 3, nextContextID := 1, now := 2, insertBudget := none }
      { summary := "sum", replaced := [samplePrompt 1 "a", sampleResp 2 "r" none],
        origCount := 2, summaryCount := 3 } "demo" "c" rfl rfl (by decide)
      (by decide) hrepl
  exact ⟨db1, h1, h2⟩

/-- C2: when the current context has its threading-mode flag enabled but the
configured model adapter does not implement the server-side-threading
interface, `CallModelWithOpts` fails with the explicit
`model does not support server-side threading` error — no silent fallback to
client-side mode — and neither the session (metrics) nor the database
(records) is modified: nothing is persisted for that attempt. -/
theorem C2_threading_requires_capability (tc : String → Nat) (cw : ContextWindow)
    (db : DB) (opts : CallModelOpts) (contextID : String) (contextInfo : Context)
    (hctx : getContextIDByName db cw.currentContext = some contextID)
    (hinfo : GetContext db contextID = some contextInfo)
    (hsst : contextInfo.useServerSideThreading = true)
    (hcap : cw.model.threadingCapable = none) :
    CallModelWithOpts tc cw db opts =
      (.error "model does not support server-side threading", cw, db) := by
  unfold CallModelWithOpts
  rw [hctx]
  simp only []
  rw [hinfo]
  simp only [hsst, hcap, if_true]

/-- C2 witness: a threading-enabled context driven against an adapter
without the threading capability, through the theorem. -/
theorem C2_threading_requires_capability_witness :
    GetContext
      { contexts := [{ id := "c", name := "demo", startTime := 0,
                       useServerSideThreading := true, lastResponseID := none }],
        records := [], nextRecordID := 1, nextContextID := 1, now := 0,
        insertBudget := none } "c" =
      some { id := "c", name := "demo", startTime := 0,
             useServerSideThreading := true, lastResponseID := none } ∧
    CallModelWithOpts (fun s => s.length)
      (NewContextWindow
        { Call := fun _ => .ok ([], 0), threadingCapable := none,
          callOptsCapable := none } "demo")
      { contexts := [{ id := "c", name := "demo", startTime := 0,
                       useServerSideThreading := true, lastResponseID := none }],
        records := [], nextRecordID := 1, nextContextID := 1, now := 0,
        insertBudget := none } { disableTools := false } =
      (.error "model does not support server-side threading",
       NewContextWindow
         { Call := fun _ => .ok ([], 0), threadingCapable := none,
           callOptsCapable := none } "demo",
       { contexts := [{ id := "c", name := "demo", startTime := 0,
                        useServerSideThreading := true, lastResponseID := none }],
         records := [], nextRecordID := 1, nextContextID := 1, now := 0,
         insertBudget := none }) :=
  ⟨rfl,
   C2_threading_requires_capability (fun s => s.length)
     (NewContextWindow
       { Call := fun _ => .ok ([], 0), threadingCapable := none,
         callOptsCapable := none } "demo")
     { contexts := [{ id := "c", name := "demo", startTime := 0,
                      useServerSideThreading := true, lastResponseID := none }],
       records := [], nextRecordID := 1, nextContextID := 1, now := 0,
       insertBudget := none } { disableTools := false } "c"
     { id := "c", name := "demo", startTime := 0,
       useServerSideThreading := true, lastResponseID := none }
     rfl rfl rfl rfl⟩

/-- Helper: when the injected budget allows exactly `k` more inserts and the
batch is longer, the persistence loop of `CallModelWithOpts` fails at the
`(k+1)`-st insert with the storage error, keeping the `k` records already
inserted — no rollback and no retry. -/
theorem persistEvents_partial (tc : String → Nat) (contextID : String) :
    ∀ (events : List Record) (db : DB) (k : Nat) (lastMsg : String),
      db.insertBudget = some k → k < events.length →
      (persistEvents tc db contextID events lastMsg).1 =
        .error "insert model response: insert record: sql: database is closed" ∧
      ∃ inserted : List Record,
        (persistEvents tc db contextID events lastMsg).2.records =
          db.records ++ inserted ∧
        inserted.length = k ∧
        inserted.map (fun r => (r.source, r.content, r.live)) =
          (events.take k).map (fun r => (r.source, r.content, r.live)) := by
  intro events
  induction events with
  | nil =>
      intro db k lastMsg hb hk
      exact absurd hk (by simp)
  | cons e rest ih =>
      intro db k lastMsg hb hk
      cases k with
      | zero =>
          unfold persistEvents InsertRecordWithResponseID
          rw [hb]
          exact ⟨rfl, [], by simp, rfl, rfl⟩
      | succ k0 =>
          unfold persistEvents InsertRecordWithResponseID
          rw [hb]
          simp only [Option.map_some', Nat.add_sub_cancel]
          have hstep := ih
            { db with
              records := db.records ++
                [{ id := db.nextRecordID, timestamp := db.now, source := e.source,
                   content := e.content, live := e.live, estTokens := tc e.content,
                   contextID := contextID, responseID := e.responseID }],
              nextRecordID := db.nextRecordID + 1, insertBudget := some k0 }
            k0 e.content rfl (by simpa using Nat.lt_of_succ_lt_succ hk)
          refine ⟨hstep.1, ?_⟩
          obtain ⟨inserted, hrec, hlen, hmap⟩ := hstep.2
          refine ⟨{ id := db.nextRecordID, timestamp := db.now, source := e.source,
                    content := e.content, live := e.live, estTokens := tc e.content,
                    contextID := contextID, responseID := e.responseID } :: inserted,
                  ?_, by simp [hlen], ?_⟩
          · rw [hrec]
            simp
          · simp only [List.take_succ_cons, List.map_cons, hmap]

/-- C3: when a record-store insert fails while `CallModelWithOpts` persists
the batch of records produced by one invocation, the error is surfaced
immediately (no retry) and every record of the batch inserted before the
failure remains inserted — there is no compensating rollback; the metrics
were already incremented before persistence, as in the Go code. -/
theorem C3_persist_failure_no_rollback (tc : String → Nat) (cw : ContextWindow)
    (db : DB) (opts : CallModelOpts) (contextID : String) (contextInfo : Context)
    (events : List Record) (tokensUsed : Nat) (k : Nat)
    (hctx : getContextIDByName db cw.currentContext = some contextID)
    (hinfo : GetContext db contextID = some contextInfo)
    (hsst : contextInfo.useServerSideThreading = false)
    (hcap : cw.model.callOptsCapable = none)
    (hcall : cw.model.Call (ListLiveRecords db contextID) = .ok (events, tokensUsed))
    (hbudget : db.insertBudget = some k)
    (hk : k < events.length) :
    ∃ db1 : DB,
      CallModelWithOpts tc cw db opts =
        (.error "insert model response: insert record: sql: database is closed",
         { cw with metricsTotal := cw.metricsTotal + tokensUsed }, db1) ∧
      ∃ inserted : List Record,
        db1.records = db.records ++ inserted ∧
        inserted.length = k ∧
        inserted.map (fun r => (r.source, r.content, r.live)) =
          (events.take k).map (fun r => (r.source, r.content, r.live)) := by
  have hp := persistEvents_partial tc contextID events db k "" hbudget hk
  rcases hPE : persistEvents tc db contextID events "" with ⟨res, db1⟩
  rw [hPE] at hp
  simp only [] at hp
  obtain ⟨hres, hins⟩ := hp
  refine ⟨db1, ?_, hins⟩
  unfold CallModelWithOpts
  rw [hctx]
  simp only []
  rw [hinfo]
  simp only [hsst, Bool.false_eq_true, if_false, hcap, hcall]
  rw [hPE, hres]

/-- C3 witness: a context driven against an adapter returning two events
over a store that admits exactly one more insert, through the theorem. -/
theorem C3_persist_failure_no_rollback_witness :
    (some 1 : Option Nat) = some 1 ∧ 1 < 2 ∧
    (∃ db1 : DB,
      CallModelWithOpts (fun s => s.length)
        (NewContextWindow
          { Call := fun _ => .ok ([sampleResp 0 "one" none, sampleResp 0 "two" none], 5),
            threadingCapable := none, callOptsCapable := none } "demo")
        { contexts := [{ id := "c", name := "demo", startTime := 0,
                         useServerSideThreading := false, lastResponseID := none }],
          records := [], nextRecordID := 1, nextContextID := 1, now := 0,
          insertBudget := some 1 } { disableTools := false } =
        (.error "insert model response: insert record: sql: database is closed",
         { NewContextWindow
             { Call := fun _ => .ok ([sampleResp 0 "one" none, sampleResp 0 "two" none], 5),
               threadingCapable := none, callOptsCapable := none } "demo" with
           metricsTotal := 0 + 5 }, db1) ∧
      ∃ inserted : List Record,
        db1.records = [] ++ inserted ∧
        inserted.length = 1 ∧
        inserted.map (fun r => (r.source, r.content, r.live)) =
          ([sampleResp 0 "one" none, sampleResp 0 "two" none].take 1).map
            (fun r => (r.source, r.content, r.live))) :=
  ⟨rfl, by decide,
   C3_persist_failure_no_rollback (fun s => s.length)
     (NewContextWindow
       { Call := fun _ => .ok ([sampleResp 0 "one" none, sampleResp 0 "two" none], 5),
         threadingCapable := none, callOptsCapable := none } "demo")
     { contexts := [{ id := "c", name := "demo", startTime := 0,
                      useServerSideThreading := false, lastResponseID := none }],
       records := [], nextRecordID := 1, nextContextID := 1, now := 0,
       insertBudget := some 1 } { disableTools := false } "c"
     { id := "c", name := "demo", startTime := 0,
       useServerSideThreading := false, lastResponseID := none }
     [sampleResp 0 "one" none, sampleResp 0 "two" none] 5 1
     rfl rfl rfl rfl rfl rfl (by decide)⟩

/-- The context row used by the token-usage scenario. -/
def demoContext : Context :=
  { id := "ctx-0", name := "demo", startTime := 0,
    useServerSideThreading := false, lastResponseID := none }

/-- A store holding only the scenario context. -/
def demoDB : DB :=
  { contexts := [demoContext], records := [], nextRecordID := 1, nextContextID := 1,
    now := 0, insertBudget := none }

/-- A stub adapter answering `"hi"` and reporting 5 tokens used. -/
def stubAdapter (tc : String → Nat) : ModelAdapter :=
  { Call := fun _ => .ok
      ([{ id := 0, timestamp := 0, source := .modelResp, content := "hi", live := true,
          estTokens := tc "hi", contextID := "", responseID := none }], 5),
    threadingCapable := none, callOptsCapable := none }

/-- The prompt record the scenario inserts. -/
def promptRec (tc : String → Nat) : Record :=
  { id := 1, timestamp := 0, source := .prompt, content := "a b c", live := true,
    estTokens := tc "a b c", contextID := "ctx-0", responseID := none }

/-- The response record the scenario persists. -/
def respRec (tc : String → Nat) : Record :=
  { id := 2, timestamp := 0, source := .modelResp, content := "hi", live := true,
    estTokens := tc "hi", contextID := "ctx-0", responseID := none }

/-- The store after `AddPrompt "a b c"`. -/
def dbAfterPrompt (tc : String → Nat) : DB :=
  { demoDB with records := [promptRec tc], nextRecordID := 2 }

/-- The store after the model call persisted the response. -/
def dbAfterCall (tc : String → Nat) : DB :=
  { demoDB with records := [promptRec tc, respRec tc], nextRecordID := 3 }

/-- C7: for any token-count function, after adding the prompt `"a b c"` and
before any model call, `TokenUsage` reports `Live` equal to the tokenizer's
count of `"a b c"` and `Total` equal to 0; after one model call whose
adapter reports 5 tokens used, the cumulative counter is incremented by the
adapter-reported usage (`Total` becomes 5, not recomputed locally) and
`Live` increases by the response record's estimated token count. -/
theorem C7_token_usage (tc : String → Nat) :
    AddPrompt tc (NewContextWindow (stubAdapter tc) "demo") demoDB "a b c" =
      (.ok (), dbAfterPrompt tc) ∧
    (NewContextWindow (stubAdapter tc) "demo").TokenUsage (dbAfterPrompt tc) =
      .ok { live := tc "a b c", total := 0, max := 4096 } ∧
    CallModel tc (NewContextWindow (stubAdapter tc) "demo") (dbAfterPrompt tc) =
      (.ok "hi",
       { NewContextWindow (stubAdapter tc) "demo" with metricsTotal := 5 },
       dbAfterCall tc) ∧
    ({ NewContextWindow (stubAdapter tc) "demo" with
       metricsTotal := 5 } : ContextWindow).TokenUsage (dbAfterCall tc) =
      .ok { live := tc "a b c" + tc "hi", total := 5, max := 4096 } := by
  have hlive1 : ListLiveRecords (dbAfterPrompt tc) "ctx-0" = [promptRec tc] := by
    rw [ListLiveRecords, listRecordsWhere]
    have : (dbAfterPrompt tc).records.filter
        (fun r => decide (r.contextID = "ctx-0") && r.live) = [promptRec tc] := rfl
    rw [this, List.mergeSort_singleton]
  have hord2 : recordsOrdered (dbAfterCall tc).records := by
    unfold recordsOrdered dbAfterCall
    simp only []
    refine List.Pairwise.cons ?_ (List.pairwise_singleton _ _)
    intro b hb
    rw [List.mem_singleton] at hb
    subst hb
    exact Nat.le_refl 0
  have hlive2 : ListLiveRecords (dbAfterCall tc) "ctx-0" = [promptRec tc, respRec tc] := by
    rw [ListLiveRecords, listRecordsWhere_eq_filter _ _ hord2]
    rfl
  refine ⟨rfl, ?_, ?_, ?_⟩
  · unfold ContextWindow.TokenUsage LiveTokens
    have hctx : getContextIDByName (dbAfterPrompt tc)
        (NewContextWindow (stubAdapter tc) "demo").currentContext = some "ctx-0" := rfl
    rw [hctx]
    simp only [hlive1]
    simp [NewContextWindow, promptRec]
  · unfold CallModel CallModelWithOpts
    have hctx : getContextIDByName (dbAfterPrompt tc)
        (NewContextWindow (stubAdapter tc) "demo").currentContext = some "ctx-0" := rfl
    rw [hctx]
    simp only []
    have hinfo : GetContext (dbAfterPrompt tc) "ctx-0" = some demoContext := rfl
    rw [hinfo]
    simp only []
    rfl
  · unfold ContextWindow.TokenUsage LiveTokens
    have hctx : getContextIDByName (dbAfterCall tc)
        ({ NewContextWindow (stubAdapter tc) "demo" with
           metricsTotal := 5 } : ContextWindow).currentContext = some "ctx-0" := rfl
    rw [hctx]
    simp only [hlive2]
    simp [NewContextWindow, promptRec, respRec]

/-- The session state of the sole-context `"default"` deletion scenario. -/
def c10CW : ContextWindow :=
  { model := { Call := fun _ => .ok ([], 0), threadingCapable := none,
               callOptsCapable := none },
    currentContext := "default", maxTokens := 4096, metricsTotal := 0,
    summarizer := none, summarizerPrompt := "" }

/-- The sole context of the deletion scenario, itself named `"default"`. -/
def c10Ctx : Context :=
  { id := "d0", name := "default", startTime := 0,
    useServerSideThreading := false, lastResponseID := none }

/-- A store whose only context is the `"default"` context. -/
def c10DB : DB :=
  { contexts := [c10Ctx], records := [], nextRecordID := 1, nextContextID := 1,
    now := 0, insertBudget := none }

/-- Helper: the concrete run deleting the sole context `"default"` while it
is current — the replacement get-or-create returns the very context being
deleted, so the deletion succeeds and empties the registry while the session
still points at `"default"`. -/
theorem c10_delete_default_eval :
    ContextWindow.DeleteContext c10CW c10DB "default" =
      (.ok (), { c10CW with currentContext := "default" },
       { c10DB with contexts := [], records := [] }) := by
  have hlist : ListContexts c10DB = [c10Ctx] := by
    rw [ListContexts]
    exact List.mergeSort_singleton _
  unfold ContextWindow.DeleteContext
  rw [if_pos (show "default" = c10CW.currentContext from rfl)]
  simp only [hlist]
  rfl

/-- C10 counterexample: deleting the session's current context succeeds yet
leaves the session pointing at a deleted context, when the deleted context
is the sole context and is itself named `"default"` — the get-or-create of
the replacement `"default"` returns the very context about to be deleted. -/
theorem C10_delete_context_counterexample :
    c10CW.currentContext = "default" ∧
    (ContextWindow.DeleteContext c10CW c10DB "default").1 = .ok () ∧
    (ContextWindow.DeleteContext c10CW c10DB "default").2.1.currentContext = "default" ∧
    (ContextWindow.DeleteContext c10CW c10DB "default").2.2.contexts = [] ∧
    GetContextByName (ContextWindow.DeleteContext c10CW c10DB "default").2.2
      "default" = none := by
  rw [c10_delete_default_eval]
  exact ⟨rfl, rfl, rfl, rfl, rfl⟩

/-- Helper: what a successful get-or-create guarantees — the returned
context carries the requested name, is in the resulting registry, and the
registry's id column is unchanged or extended by the one freshly generated
id. -/
theorem CreateContextWithThreading_ok_mem (db : DB) (nm : String) (sst : Bool)
    (c : Context) (db1 : DB)
    (h : CreateContextWithThreading db nm sst = (.ok c, db1)) :
    c.name = nm ∧ c ∈ db1.contexts ∧
    (db1.contexts.map Context.id = db.contexts.map Context.id ∨
     db1.contexts.map Context.id =
       db.contexts.map Context.id ++ [mkContextID db.nextContextID]) := by
  unfold CreateContextWithThreading at h
  by_cases hname : nm = ""
  · rw [if_pos hname] at h
    exact absurd (congrArg Prod.fst h) (by simp)
  rw [if_neg hname] at h
  cases hfind : GetContextByName db nm with
  | some existing =>
      have hexname : existing.name = nm := by
        have := List.find?_some hfind
        simpa using this
      have hexmem : existing ∈ db.contexts := List.mem_of_find?_eq_some hfind
      rw [hfind] at h
      simp only [] at h
      by_cases hmode : existing.useServerSideThreading ≠ sst
      · rw [if_pos hmode] at h
        simp only [Prod.mk.injEq, Except.ok.injEq] at h
        obtain ⟨hc, hdb⟩ := h
        subst hc
        subst hdb
        refine ⟨hexname, ?_, Or.inl ?_⟩
        · unfold SetContextServerSideThreading
          simp only []
          refine List.mem_map.mpr ⟨existing, hexmem, ?_⟩
          rw [if_pos rfl]
        · unfold SetContextServerSideThreading
          simp only [List.map_map]
          congr 1
          funext x
          by_cases hid : x.id = existing.id <;> simp [Function.comp, hid]
      · rw [if_neg hmode] at h
        simp only [Prod.mk.injEq, Except.ok.injEq] at h
        obtain ⟨hc, hdb⟩ := h
        subst hc
        subst hdb
        exact ⟨hexname, hexmem, Or.inl rfl⟩
  | none =>
      rw [hfind] at h
      simp only [Prod.mk.injEq, Except.ok.injEq] at h
      obtain ⟨hc, hdb⟩ := h
      subst hc
      subst hdb
      refine ⟨rfl, ?_, Or.inr ?_⟩
      · exact List.mem_append.mpr (Or.inr (List.mem_singleton.mpr rfl))
      · simp

/-- Helper: what a successful delete-by-name guarantees — some context of
that name was found and the resulting registry is the old one with the rows
of that context's id filtered out. -/
theorem DeleteContextByName_ok (db : DB) (nm : String) (db2 : DB)
    (h : DeleteContextByName db nm = .ok db2) :
    ∃ cName, cName ∈ db.contexts ∧ cName.name = nm ∧
      db2.contexts = db.contexts.filter (fun c => decide (c.id ≠ cName.id)) := by
  unfold DeleteContextByName at h
  cases hfind : GetContextByName db nm with
  | none =>
      rw [hfind] at h
      exact absurd h (by simp)
  | some c0 =>
      rw [hfind] at h
      simp only [Except.ok.injEq] at h
      refine ⟨c0, List.mem_of_find?_eq_some hfind, ?_, ?_⟩
      · have := List.find?_some hfind
        simpa using this
      · rw [← h]
        rfl

/-- C10 (amended): a successful `DeleteContext` on the session's current
context leaves the session pointing at a surviving context — to one of the
other contexts when at least one exists, else to a get-or-created
`"default"` — EXCEPT when the context being deleted is the sole context and
is itself named `"default"`: then the get-or-create returns the very context
being deleted and the session is left pointing at the deleted `"default"`
(see the counterexample). Registry well-formedness (distinct ids, distinct
names, fresh generated id) is assumed. -/
theorem C10_delete_context_repoint_amended (cw : ContextWindow) (db : DB)
    (name : String) (cw1 : ContextWindow) (db1 : DB)
    (hcur : name = cw.currentContext)
    (hids : (db.contexts.map Context.id).Nodup)
    (hnames : (db.contexts.map Context.name).Nodup)
    (hfresh : ∀ c ∈ db.contexts, c.id ≠ mkContextID db.nextContextID)
    (hnotdef : ¬(name = "default" ∧ db.contexts.length ≤ 1))
    (hok : ContextWindow.DeleteContext cw db name = (.ok (), cw1, db1)) :
    ∃ c, c ∈ db1.contexts ∧ c.name = cw1.currentContext := by
  have hperm : List.Perm (ListContexts db) db.contexts :=
    List.mergeSort_perm db.contexts contextStartGE
  unfold ContextWindow.DeleteContext at hok
  rw [if_pos hcur] at hok
  simp only [] at hok
  by_cases hlen : (ListContexts db).length ≤ 1
  · -- sole-context branch: repoint to a get-or-created "default"
    rw [if_pos hlen] at hok
    have hlen' : db.contexts.length ≤ 1 := hperm.length_eq ▸ hlen
    have hnd : name ≠ "default" := by
      intro hcon
      exact hnotdef ⟨hcon, hlen'⟩
    cases hcreate : CreateContext db "default" with
    | mk cres dbc =>
        rw [hcreate] at hok
        unfold CreateContext at hcreate
        cases cres with
        | error e =>
            simp only [] at hok
            exact absurd (congrArg (fun x => x.1) hok) (by simp)
        | ok cDef =>
            simp only [] at hok
            obtain ⟨hdefname, hdefmem, hdefids⟩ :=
              CreateContextWithThreading_ok_mem db "default" false cDef dbc hcreate
            cases hdel : DeleteContextByName dbc name with
            | error e =>
                rw [hdel] at hok
                exact absurd (congrArg (fun x => x.1) hok) (by simp)
            | ok db2 =>
                rw [hdel] at hok
                simp only [Prod.mk.injEq] at hok
                obtain ⟨-, hcw1, hdb1⟩ := hok
                obtain ⟨cName, hNmem, hNname, hNctx⟩ :=
                  DeleteContextByName_ok dbc name db2 hdel
                have hidsc : (dbc.contexts.map Context.id).Nodup := by
                  rcases hdefids with hsame | hext
                  · rw [hsame]
                    exact hids
                  · rw [hext]
                    rw [List.nodup_append]
                    refine ⟨hids, List.nodup_singleton _, ?_⟩
                    intro a ha hb
                    rw [List.mem_singleton] at hb
                    subst hb
                    obtain ⟨c0, hc0, hc0id⟩ := List.mem_map.mp ha
                    exact hfresh c0 hc0 hc0id
                have hne : cDef.id ≠ cName.id := by
                  intro hid
                  have heq : cDef = cName :=
                    List.inj_on_of_nodup_map hidsc hdefmem hNmem hid
                  exact hnd (by rw [← hNname, ← heq, hdefname])
                refine ⟨cDef, ?_, ?_⟩
                · rw [← hdb1, hNctx]
                  exact List.mem_filter.mpr ⟨hdefmem, by simp [hne]⟩
                · rw [← hcw1]
                  exact hdefname
  · -- several contexts: repoint to the first listed context of another name
    rw [if_neg hlen] at hok
    cases hfind : (ListContexts db).find? (fun c => decide (c.name ≠ name)) with
    | none =>
        exfalso
        have hall : ∀ c ∈ ListContexts db, c.name = name := by
          intro c hc
          have := List.find?_eq_none.mp hfind c hc
          simpa using this
        have hlen2 : 2 ≤ (ListContexts db).length := by omega
        cases hL : ListContexts db with
        | nil => rw [hL] at hlen2; simp at hlen2
        | cons x tl =>
            cases tl with
            | nil => rw [hL] at hlen2; simp at hlen2
            | cons y tl2 =>
                have hnames' : ((ListContexts db).map Context.name).Nodup :=
                  ((hperm.map Context.name).nodup_iff).mpr hnames
                rw [hL] at hnames'
                have hx : x.name = name := hall x (by rw [hL]; exact List.mem_cons_self x _)
                have hy : y.name = name := hall y (by
                  rw [hL]
                  exact List.mem_cons_of_mem x (List.mem_cons_self y _))
                rw [List.map_cons, List.nodup_cons] at hnames'
                exact hnames'.1 (by
                  rw [List.map_cons, List.mem_cons]
                  exact Or.inl (hx.trans hy.symm))
    | some cSurv =>
        rw [hfind] at hok
        simp only [] at hok
        have hSname : cSurv.name ≠ name := by
          have := List.find?_some hfind
          simpa using this
        have hSmem : cSurv ∈ db.contexts :=
          hperm.mem_iff.mp (List.mem_of_find?_eq_some hfind)
        cases hdel : DeleteContextByName db name with
        | error e =>
            rw [hdel] at hok
            exact absurd (congrArg (fun x => x.1) hok) (by simp)
        | ok db2 =>
            rw [hdel] at hok
            simp only [Prod.mk.injEq] at hok
            obtain ⟨-, hcw1, hdb1⟩ := hok
            obtain ⟨cName, hNmem, hNname, hNctx⟩ :=
              DeleteContextByName_ok db name db2 hdel
            have hne : cSurv.id ≠ cName.id := by
              intro hid
              have : cSurv = cName :=
                List.inj_on_of_nodup_map hids hSmem hNmem hid
              exact hSname (this ▸ hNname)
            refine ⟨cSurv, ?_, ?_⟩
            · rw [← hdb1, hNctx]
              exact List.mem_filter.mpr ⟨hSmem, by simp [hne]⟩
            · rw [← hcw1]

/-- First context of the two-context deletion scenario, the current one. -/
def waCtx : Context :=
  { id := "ia", name := "a", startTime := 1,
    useServerSideThreading := false, lastResponseID := none }

/-- Second context of the two-context deletion scenario, the survivor. -/
def wbCtx : Context :=
  { id := "ib", name := "b", startTime := 0,
    useServerSideThreading := false, lastResponseID := none }

/-- The session of the two-context deletion scenario, on context `"a"`. -/
def wCW : ContextWindow :=
  { model := { Call := fun _ => .ok ([], 0), threadingCapable := none,
               callOptsCapable := none },
    currentContext := "a", maxTokens := 4096, metricsTotal := 0,
    summarizer := none, summarizerPrompt := "" }

/-- The two-context store of the deletion scenario. -/
def wDB : DB :=
  { contexts := [waCtx, wbCtx], records := [], nextRecordID := 1,
    nextContextID := 2, now := 0, insertBudget := none }

/-- Helper: the concrete run deleting current context `"a"` with `"b"` as
the surviving context the session is repointed to. -/
theorem c10_amended_eval :
    ContextWindow.DeleteContext wCW wDB "a" =
      (.ok (), { wCW with currentContext := "b" },
       { wDB with contexts := [wbCtx], records := [] }) := by
  have hlist : ListContexts wDB = [waCtx, wbCtx] := by
    rw [ListContexts]
    exact List.mergeSort_of_sorted (by decide)
  unfold ContextWindow.DeleteContext
  rw [if_pos (show "a" = wCW.currentContext from rfl)]
  simp only [hlist]
  rfl

/-- C10 amended witness: deleting the current of two contexts, through the
amended theorem, with all registry hypotheses evaluated concretely. -/
theorem C10_delete_context_repoint_amended_witness :
    ("a" : String) = wCW.currentContext ∧
    (∃ c, c ∈ ({ wDB with contexts := [wbCtx], records := [] } : DB).contexts ∧
      c.name = ({ wCW with currentContext := "b" } : ContextWindow).currentContext) :=
  ⟨rfl,
   C10_delete_context_repoint_amended wCW wDB "a"
     { wCW with currentContext := "b" } { wDB with contexts := [wbCtx], records := [] }
     rfl (by decide) (by decide) (by decide) (by decide) c10_amended_eval⟩

end Contextwindow
